import Mathlib

/-!
Shallow embedding of the hierarchical elaboration core of the slang
front-end (InstanceSymbols.cpp and CompilationUnitSymbols.cpp), together
with theorems settling the frozen specification claims.

Identifier ids (libraries, symbols, syntax nodes) are modelled as `Nat`.
Diagnostic emission is modelled by returning lists of `DiagCode`.
Arena mutation is modelled by explicit state passing.
-/

namespace Slang

/-- Library identifier (a `SourceLibrary` pointer in the source). -/
abbrev LibId := Nat

/-- Symbol identifier (an arena pointer in the source). -/
abbrev SymId := Nat

/-- Diagnostic codes relevant to the claims, mirroring `slang::diag`. -/
inductive DiagCode where
  | instanceNameRequired
  | maxInstanceArrayExceeded
  | bindUnderBind
  | bindTargetPrimitive
  | invalidPrimInstanceForParent
  | invalidInstanceForParent
  | unknownModule
deriving DecidableEq, Repr

/-- Argument directions used when binding primitive port connections. -/
inductive ArgDir where
  | dirIn
  | dirOut
  | dirInOut
deriving DecidableEq, Repr

/-- `slang::ConstantRange`: a [left:right] range of integers.
The default-constructed range is [0:0]. -/
structure ConstantRange where
  left : Int
  right : Int
deriving DecidableEq, Repr

instance : Inhabited ConstantRange := ⟨⟨0, 0⟩⟩

/-- `ConstantRange::width()`: absolute distance plus one. -/
def ConstantRange.width (r : ConstantRange) : Nat :=
  (r.left - r.right).natAbs + 1

/-- `ConstantRange::lower()`: the smaller bound. -/
def ConstantRange.lower (r : ConstantRange) : Int :=
  min r.left r.right

/-- `ConstantRange::upper()`: the larger bound. -/
def ConstantRange.upper (r : ConstantRange) : Int :=
  max r.left r.right

/-- The list of indices enumerated by the element-creation loops: both the
`for (uint32_t i = 0; i < range.width(); i++) ... lower() + i` loop of
`InstanceBuilder::recurse` and the
`for (int32_t i = range.lower(); i <= range.upper(); i++)` loops of
`recursePrimArray` / `recurseCheckerArray` enumerate exactly
`lower, lower+1, ..., upper` in order. -/
def ConstantRange.indices (r : ConstantRange) : List Int :=
  (List.range r.width).map (fun (i : Nat) => r.lower + (i : Int))

/-- Result of `ASTContext::evalDimension(..., requireRange=true, ...)`:
either a proper constant range or a failure. -/
inductive EvaluatedDimension where
  | range (left right : Int)
  | notRange
deriving DecidableEq, Repr

/-- The symbols produced by instance creation: leaf instances (module-like,
primitive or checker) and instance arrays. -/
inductive HierSym where
  | inst (name : String) (arrayPath : List Int)
  | primInst (name : String) (arrayPath : List Int)
  | checkerInst (name : String) (arrayPath : List Int)
  | instArray (name : String) (elements : List HierSym) (range : ConstantRange)

/-- The elements of an instance array; leaves have none. -/
def HierSym.elems : HierSym → List HierSym
  | .inst _ _ => []
  | .primInst _ _ => []
  | .checkerInst _ _ => []
  | .instArray _ es _ => es

/-- The symbol's name field. -/
def HierSym.symName : HierSym → String
  | .inst n _ => n
  | .primInst n _ => n
  | .checkerInst n _ => n
  | .instArray n _ _ => n

/-- `symbol->name = "";` — interior array element names are stripped. -/
def HierSym.stripName : HierSym → HierSym
  | .inst _ p => .inst "" p
  | .primInst _ p => .primInst "" p
  | .checkerInst _ p => .checkerInst "" p
  | .instArray _ es r => .instArray "" es r

/-- `InstanceBuilder::recurse`: iterate the declared dimensions
left-to-right.  An unevaluable dimension yields an empty array with a
default range; a dimension wider than `maxInstanceArray` yields a
`MaxInstanceArrayExceeded` diagnostic and an empty array; otherwise one
element is created per index of the range, with interior names stripped
and the absolute index appended to the array path. -/
def InstanceBuilder.recurse (maxInstanceArray : Nat) (instName : String) :
    List EvaluatedDimension → List Int → HierSym × List DiagCode
  | [], path => (.inst instName path, [])
  | dim :: rest, path =>
    match dim with
    | .notRange => (.instArray instName [] default, [])
    | .range l r =>
      let range : ConstantRange := ⟨l, r⟩
      if range.width > maxInstanceArray then
        (.instArray instName [] default, [.maxInstanceArrayExceeded])
      else
        let children := range.indices.map
          (fun i => InstanceBuilder.recurse maxInstanceArray instName rest (path ++ [i]))
        (.instArray instName (children.map (fun c => c.1.stripName)) range,
         (children.map Prod.snd).flatten)

/-- `recursePrimArray`: identical dimension handling, producing primitive
instance leaves. -/
def recursePrimArray (maxInstanceArray : Nat) (instName : String) :
    List EvaluatedDimension → List Int → HierSym × List DiagCode
  | [], path => (.primInst instName path, [])
  | dim :: rest, path =>
    match dim with
    | .notRange => (.instArray instName [] default, [])
    | .range l r =>
      let range : ConstantRange := ⟨l, r⟩
      if range.width > maxInstanceArray then
        (.instArray instName [] default, [.maxInstanceArrayExceeded])
      else
        let children := range.indices.map
          (fun i => recursePrimArray maxInstanceArray instName rest (path ++ [i]))
        (.instArray instName (children.map (fun c => c.1.stripName)) range,
         (children.map Prod.snd).flatten)

/-- `recurseCheckerArray`: identical dimension handling, producing checker
instance leaves. -/
def recurseCheckerArray (maxInstanceArray : Nat) (instName : String) :
    List EvaluatedDimension → List Int → HierSym × List DiagCode
  | [], path => (.checkerInst instName path, [])
  | dim :: rest, path =>
    match dim with
    | .notRange => (.instArray instName [] default, [])
    | .range l r =>
      let range : ConstantRange := ⟨l, r⟩
      if range.width > maxInstanceArray then
        (.instArray instName [] default, [.maxInstanceArrayExceeded])
      else
        let children := range.indices.map
          (fun i => recurseCheckerArray maxInstanceArray instName rest (path ++ [i]))
        (.instArray instName (children.map (fun c => c.1.stripName)) range,
         (children.map Prod.snd).flatten)

/-! ## Configuration model (CompilationUnitSymbols.cpp) -/

/-- `ConfigCellId`: optional library qualifier plus cell name; an empty cell
name means "unset".  `targetConfig` records a `use ... : config` clause. -/
structure ConfigCellId where
  lib : String
  cell : String
  targetConfig : Bool
deriving DecidableEq, Repr

instance : Inhabited ConfigCellId := ⟨⟨"", "", false⟩⟩

/-- `ConfigRule`: the three orthogonal override slots of a configuration
rule.  `paramOverrides` holds an opaque id for the parameter-assignment
AST node. -/
structure ConfigRule where
  useCell : ConfigCellId
  liblist : Option (List LibId)
  paramOverrides : Option Nat
deriving DecidableEq, Repr

/-- `ConfigBlockSymbol` (flat part): name, top cells and default liblist. -/
structure ConfigBlockSymbol where
  name : String
  topCells : List ConfigCellId
  defaultLiblist : List LibId
deriving DecidableEq, Repr

/-- `ResolvedConfig`: per-instance configuration context. -/
structure ResolvedConfig where
  useConfig : ConfigBlockSymbol
  rootInstance : SymId
  liblist : List LibId
  configRule : Option ConfigRule
deriving DecidableEq, Repr

/-- `ResolvedConfig::ResolvedConfig(useConfig, rootInstance)`: the liblist
is initialized from the config's `defaultLiblist`; no rule is attached. -/
def ResolvedConfig.make (useConfig : ConfigBlockSymbol) (rootInstance : SymId) :
    ResolvedConfig :=
  { useConfig := useConfig, rootInstance := rootInstance,
    liblist := useConfig.defaultLiblist, configRule := none }

/-- A definition as resolved by the registry (module/interface/program). -/
structure DefinitionSymbol where
  defName : String
  sourceLibrary : LibId
deriving DecidableEq, Repr

/-- A registry lookup result: either a module-like definition or a config
block. -/
inductive DefOrConfig where
  | defn (d : DefinitionSymbol)
  | configBlock (c : ConfigBlockSymbol)
deriving DecidableEq, Repr

/-- The definition-lookup services of `Compilation` used by
`InstanceSymbol::fromSyntax`, taken as oracles. -/
structure Compilation where
  getDefinitionWithRule : String → ConfigRule → Option DefOrConfig
  getDefinitionFromConfig : ConfigBlockSymbol → ConfigCellId → Option DefinitionSymbol

/-- Lines 582-592 of InstanceSymbols.cpp: if a per-instance rule lookup
returned a `ConfigBlock`, it becomes the new config root; its sole top
cell is resolved to the actual definition.  A config with a number of top
cells other than one yields no definition (`TODO: error` in the source). -/
def resolveConfigRedirect (comp : Compilation) (d : Option DefOrConfig) :
    Option DefinitionSymbol × Option ConfigBlockSymbol :=
  match d with
  | some (.configBlock cb) =>
    match cb.topCells with
    | [cell] => (comp.getDefinitionFromConfig cb cell, some cb)
    | _ => (none, some cb)
  | some (.defn ds) => (some ds, none)
  | none => (none, none)

/-- Lines 519-527: when a per-instance config rule applies, the local
resolved config is a copy of the parent's carrying the rule, with the
rule's liblist (when present) replacing the inherited one. -/
def localConfigFor (resolvedConfig : ResolvedConfig) (confRule : ConfigRule) :
    ResolvedConfig :=
  { resolvedConfig with
      configRule := some confRule,
      liblist :=
        match confRule.liblist with
        | some l => l
        | none => resolvedConfig.liblist }

/-- Lines 117-126 (`InstanceBuilder::createInstance`): the created
instance's resolved config.  With a new config root, a fresh
`ResolvedConfig` rooted at the created instance is made (inheriting the
rule pointer); otherwise the surrounding one is shared. -/
def InstanceBuilder.instConfig (resolvedConfig : Option ResolvedConfig)
    (newConfigRoot : Option ConfigBlockSymbol) (instId : SymId) :
    Option ResolvedConfig :=
  match resolvedConfig with
  | none => none
  | some rc =>
    match newConfigRoot with
    | some root => some { ResolvedConfig.make root instId with configRule := rc.configRule }
    | none => some rc

/-- The per-instance elaboration path of `InstanceSymbol::fromSyntax`
(lines 566-607 composed with `createInstances` and
`InstanceBuilder::createInstance`): look up the definition under the
instance rule, re-root through a config block if one is returned, and
compute the created instance's definition and resolved config. -/
def elabInstanceWithRule (comp : Compilation) (defName : String)
    (parentConfig : ResolvedConfig) (rule : ConfigRule) (instId : SymId) :
    Option DefinitionSymbol × Option ResolvedConfig :=
  let d := comp.getDefinitionWithRule defName rule
  let dr := resolveConfigRedirect comp d
  match dr.1 with
  | none => (none, none)
  | some ds =>
    let localConfig := localConfigFor parentConfig rule
    (some ds, InstanceBuilder.instConfig (some localConfig) dr.2 instId)

/-! ## Instance-override trie construction (ConfigBlockSymbol::fromSyntax) -/

/-- A node of the per-instance override trie; `childNodes` is keyed by
hierarchical path segment name. -/
inductive InstanceOverride where
  | mk (rule : Option ConfigRule) (childNodes : List (String × InstanceOverride))

/-- The rule stored at a trie node. -/
def InstanceOverride.rule : InstanceOverride → Option ConfigRule
  | .mk r _ => r

/-- The children of a trie node. -/
def InstanceOverride.childNodes : InstanceOverride → List (String × InstanceOverride)
  | .mk _ cs => cs

/-- A fresh, empty trie node. -/
def InstanceOverride.empty : InstanceOverride := .mk none []

/-- The same-slot conflict test of lines 442-444: both rules set
`paramOverrides`, both set `liblist`, or both set a `useCell` name. -/
def ConfigRule.conflictsWith (nr rule : ConfigRule) : Bool :=
  (rule.paramOverrides.isSome && nr.paramOverrides.isSome) ||
  (rule.liblist.isSome && nr.liblist.isSome) ||
  (!rule.useCell.cell.isEmpty && !nr.useCell.cell.isEmpty)

/-- The component-wise union of lines 448-453: each slot set in the new
rule is copied over the existing rule's slot. -/
def ConfigRule.mergeFrom (nr rule : ConfigRule) : ConfigRule :=
  { nr with
      paramOverrides :=
        if rule.paramOverrides.isSome then rule.paramOverrides else nr.paramOverrides,
      liblist := if rule.liblist.isSome then rule.liblist else nr.liblist,
      useCell := if !rule.useCell.cell.isEmpty then rule.useCell else nr.useCell }

/-- Lines 435-455: store a rule at a trie node.  A first rule is saved; a
rule conflicting in some slot with the existing one is dropped with no
diagnostic (`TODO: error` in the source); otherwise the slots are merged
component-wise. -/
def mergeInstanceRule (existing : Option ConfigRule) (rule : ConfigRule) :
    Option ConfigRule × List DiagCode :=
  match existing with
  | none => (some rule, [])
  | some nr =>
    if nr.conflictsWith rule then (some nr, [])
    else (some (nr.mergeFrom rule), [])

/-- Update (or create) the child of name `seg` in an association list of
trie children. -/
def updateChild (children : List (String × InstanceOverride)) (seg : String)
    (f : InstanceOverride → InstanceOverride × List DiagCode) :
    List (String × InstanceOverride) × List DiagCode :=
  match children with
  | [] =>
    let fr := f InstanceOverride.empty
    ([(seg, fr.1)], fr.2)
  | (k, v) :: rest =>
    if k = seg then
      let fr := f v
      ((k, fr.1) :: rest, fr.2)
    else
      let ur := updateChild rest seg f
      ((k, v) :: ur.1, ur.2)

/-- Lines 427-456 (`InstanceConfigRule` case): descend the trie along the
hierarchical path — the first segment is the top module name — creating
nodes, and store the rule at the final node via `mergeInstanceRule`. -/
def insertInstanceRule : InstanceOverride → List String → ConfigRule →
    InstanceOverride × List DiagCode
  | node, [], rule =>
    let mr := mergeInstanceRule node.rule rule
    (.mk mr.1 node.childNodes, mr.2)
  | node, seg :: restPath, rule =>
    let ur := updateChild node.childNodes seg
      (fun child => insertInstanceRule child restPath rule)
    (.mk node.rule ur.1, ur.2)

/-- Process a sequence of `instance path (use|liblist|...)` rules in order,
accumulating diagnostics. -/
def processInstanceRules (node : InstanceOverride)
    (rules : List (List String × ConfigRule)) : InstanceOverride × List DiagCode :=
  match rules with
  | [] => (node, [])
  | (path, rule) :: rest =>
    let ir := insertInstanceRule node path rule
    let pr := processInstanceRules ir.1 rest
    (pr.1, ir.2 ++ pr.2)

/-- Find the rule recorded for a full hierarchical path in the trie. -/
def InstanceOverride.ruleAt : InstanceOverride → List String → Option ConfigRule
  | node, [] => node.rule
  | node, seg :: rest =>
    match node.childNodes.find? (fun c => c.1 = seg) with
    | some c => c.2.ruleAt rest
    | none => none

/-! ## Instances, bodies and port-connection memoisation
(InstanceSymbols.cpp) -/

/-- `InstanceBodySymbol` (state relevant to the claims): flags and the
back-pointer to the parent instance. -/
structure InstanceBodySymbol where
  definitionName : String
  isUninstantiated : Bool
  isFromBind : Bool
  parentInstance : Option SymId
deriving DecidableEq, Repr

/-- `InstanceSymbol` (state relevant to the claims): identity, body, and
the lazily resolved port-connection map (`connectionMap`/`connections`). -/
structure InstanceSymbol where
  selfId : SymId
  instName : String
  body : InstanceBodySymbol
  connectionMap : Option (List (Nat × Nat))
  connections : List (Nat × Nat)
deriving DecidableEq, Repr

/-- `InstanceSymbol::InstanceSymbol` (lines 252-257): construction stores
the body and immediately sets `body.parentInstance = this`.  The
connection map starts unallocated. -/
def InstanceSymbol.make (selfId : SymId) (instName : String)
    (body : InstanceBodySymbol) : InstanceSymbol :=
  { selfId := selfId, instName := instName,
    body := { body with parentInstance := some selfId },
    connectionMap := none, connections := [] }

/-- `CheckerInstanceBodySymbol` (state relevant to the claims). -/
structure CheckerInstanceBodySymbol where
  checkerName : String
  instanceDepth : Nat
  isProcedural : Bool
  isFromBind : Bool
  isUninstantiated : Bool
  parentInstance : Option SymId
deriving DecidableEq, Repr

/-- `CheckerInstanceSymbol` (state relevant to the claims). -/
structure CheckerInstanceSymbol where
  selfId : SymId
  instName : String
  body : CheckerInstanceBodySymbol
deriving DecidableEq, Repr

/-- `CheckerInstanceSymbol::CheckerInstanceSymbol` (lines 1627-1632):
construction sets `body.parentInstance = this`. -/
def CheckerInstanceSymbol.make (selfId : SymId) (instName : String)
    (body : CheckerInstanceBodySymbol) : CheckerInstanceSymbol :=
  { selfId := selfId, instName := instName,
    body := { body with parentInstance := some selfId } }

/-- The memoisation step of `InstanceSymbol::resolvePortConnections`
(lines 727-759): after the port list is obtained, a non-null
`connectionMap` means a re-entrant activation already did the work and we
return; otherwise the map is allocated and the connections (a pure
function `conns` of the instantiation, modelling
`PortConnection::makeConnections`) are recorded. -/
def InstanceSymbol.resolveStep (conns : List (Nat × Nat)) (s : InstanceSymbol) :
    InstanceSymbol :=
  if s.connectionMap.isSome then s
  else { s with connectionMap := some conns, connections := conns }

/-- `InstanceSymbol::resolvePortConnections` (lines 709-760): the call to
`body.getPortList()` may re-enter this same function (modelled by the
`reenters` flag running the memoisation step once before we do); then the
guarded memoisation step runs. -/
def InstanceSymbol.resolvePortConnections (conns : List (Nat × Nat))
    (reenters : Bool) (s : InstanceSymbol) : InstanceSymbol :=
  let s1 := if reenters then InstanceSymbol.resolveStep conns s else s
  InstanceSymbol.resolveStep conns s1

/-- `InstanceSymbol::getPortConnections` (lines 703-707): resolve if the
map is unallocated, then return `connections`.  The pair is the updated
instance state and the returned span. -/
def InstanceSymbol.getPortConnections (conns : List (Nat × Nat))
    (reenters : Bool) (s : InstanceSymbol) : InstanceSymbol × List (Nat × Nat) :=
  let s1 :=
    if s.connectionMap.isSome then s
    else InstanceSymbol.resolvePortConnections conns reenters s
  (s1, s1.connections)

/-! ## Parent-scope walk and uninstantiated placeholders
(InstanceSymbol::fromSyntax, lines 394-437) -/

/-- The definition kinds distinguished by the containment checks. -/
inductive DefinitionKind where
  | module
  | interface
  | program
deriving DecidableEq, Repr

/-- A scope on the parent chain, as discriminated by the walk loop. -/
inductive ScopeMember where
  | instanceBody (isUninstantiated : Bool) (isFromBind : Bool) (defKind : DefinitionKind)
  | checkerInstanceBody (isUninstantiated : Bool) (isFromBind : Bool)
  | generateBlock (isUninstantiated : Bool)
  | otherScope
deriving DecidableEq, Repr

/-- Result of the walk: accumulated uninstantiated flag, whether a checker
body was crossed, and the nearest enclosing instance body (if any). -/
structure ParentSearch where
  isUninstantiated : Bool
  inChecker : Bool
  parentInst : Option (Bool × Bool × DefinitionKind)
deriving DecidableEq, Repr

/-- Lines 395-419: walk the parent chain (innermost scope first).  An
instance body stops the walk and contributes its flag; a checker body
marks `inChecker`, contributes its flag, and the walk continues from the
checker instance's parent scope; a generate block contributes its flag;
other scopes are skipped. -/
def findParentInstance : List ScopeMember → ParentSearch
  | [] => ⟨false, false, none⟩
  | .instanceBody u fb k :: _ => ⟨u, false, some (u, fb, k)⟩
  | .checkerInstanceBody u _ :: rest =>
    let r := findParentInstance rest
    ⟨r.isUninstantiated || u, true, r.parentInst⟩
  | .generateBlock u :: rest =>
    let r := findParentInstance rest
    ⟨r.isUninstantiated || u, r.inChecker, r.parentInst⟩
  | .otherScope :: rest => findParentInstance rest

/-- What the front of `InstanceSymbol::fromSyntax` does with an
instantiation statement. -/
inductive ElabAction where
  | placeholders (count : Nat)
  | checkerElab
  | definitionLookup
deriving DecidableEq, Repr

/-- Lines 421-437: with an uninstantiated enclosing scope, one
`UninstantiatedDefSymbol` placeholder is created per instance in the
statement (`createUninstantiatedDefs` loops over `syntax.instances`) and
elaboration stops; otherwise a local lookup may divert to checker
elaboration; otherwise a global definition lookup is performed. -/
def instantiationAction (scopes : List ScopeMember)
    (localLookupFindsChecker : Bool) (numInstances : Nat) : ElabAction :=
  let ps := findParentInstance scopes
  if ps.isUninstantiated then .placeholders numInstances
  else if localLookupFindsChecker then .checkerElab
  else .definitionLookup

/-- `CheckerInstanceSymbol::fromSyntax` lines 1649-1655: an uninstantiated
scope gets one placeholder per instance and elaboration stops. -/
def checkerInstantiationAction (scopeIsUninstantiated : Bool)
    (numInstances : Nat) : ElabAction :=
  if scopeIsUninstantiated then .placeholders numInstances else .checkerElab

/-! ## Instance-creation dispatch and bind checks
(createInstances, lines 448-543; checker variant lines 1733-1762) -/

/-- A resolved target as dispatched by `createInstances`. -/
inductive LookedUpDef where
  | primitive
  | defn (kind : DefinitionKind)
deriving DecidableEq, Repr

/-- The symbols appended by one `createInstances` call. -/
inductive CreateResult where
  | placeholders (count : Nat)
  | prims (count : Nat)
  | builtInstances (count : Nat) (isFromBind : Bool)
  | aborted
deriving DecidableEq, Repr

/-- Lines 448-543 (`createInstances`): a missing definition yields
placeholders.  A primitive yields primitive instances, diagnosing an
illegal parent (non-module owner or inside a checker) or, failing that, a
bind-targeting-a-primitive error.  A module-like definition gets the
containment diagnostics, then the bind-under-bind check: a bind statement
under a body that itself came from a bind is an error that aborts
creation; a non-bind instantiation under a from-bind body marks the new
instances as from-bind. -/
def createInstancesFor (numInstances : Nat) (d : Option LookedUpDef)
    (owningDefinition : Option DefinitionKind) (inChecker : Bool)
    (parentInstFromBind : Bool) (isFromBind : Bool) :
    CreateResult × List DiagCode :=
  match d with
  | none => (.placeholders numInstances, [])
  | some .primitive =>
    let diags :=
      if numInstances ≠ 0 then
        if owningDefinition ≠ some .module || inChecker then
          [.invalidPrimInstanceForParent]
        else if isFromBind then [.bindTargetPrimitive]
        else []
      else []
    (.prims numInstances, diags)
  | some (.defn dk) =>
    let diags1 :=
      if inChecker then [.invalidInstanceForParent]
      else
        match owningDefinition with
        | some .program => [.invalidInstanceForParent]
        | some .interface => if dk = .module then [.invalidInstanceForParent] else []
        | _ => []
    if parentInstFromBind && isFromBind then
      (.aborted, diags1 ++ [.bindUnderBind])
    else
      let fb := if parentInstFromBind then true else isFromBind
      (.builtInstances numInstances fb, diags1)

/-- `CheckerInstanceSymbol::fromSyntax` lines 1733-1762 (the bind part):
under a from-bind parent body, a bind instantiation gets a BindUnderBind
diagnostic and `createInvalid` is returned — a placeholder whose body is
marked uninstantiated, not from bind, at depth 0; otherwise the
instantiation is marked from-bind when the parent was. -/
def checkerFromSynBind (checkerName : String) (depth : Nat) (isProcedural : Bool)
    (parentIsFromBind : Bool) (isFromBind : Bool) :
    CheckerInstanceBodySymbol × List DiagCode :=
  if parentIsFromBind && isFromBind then
    ({ checkerName := checkerName, instanceDepth := 0, isProcedural := false,
       isFromBind := false, isUninstantiated := true, parentInstance := none },
     [.bindUnderBind])
  else
    let fb := if parentIsFromBind then true else isFromBind
    ({ checkerName := checkerName, instanceDepth := depth, isProcedural := isProcedural,
       isFromBind := fb, isUninstantiated := false, parentInstance := none }, [])

/-! ## Package import lookup (PackageSymbol::findForImport,
CompilationUnitSymbols.cpp lines 117-134) -/

/-- The immutable part of a package: directly declared members, whether an
`export *::*` is present, and whether any explicit export declarations
exist. -/
structure PackageSymbol where
  members : List (String × SymId)
  hasExportAll : Bool
  exportDeclsNonempty : Bool
deriving DecidableEq, Repr

/-- The mutable elaboration state attached to a package:
`hasForceElaborated` and a count of `forceElaborate` invocations. -/
structure PackageState where
  hasForceElaborated : Bool
  elabCount : Nat
deriving DecidableEq, Repr

/-- The fresh package state. -/
def PackageState.initial : PackageState := ⟨false, 0⟩

/-- `PackageSymbol::findForImport`: a directly declared member is returned
at once.  A package with no export declarations returns nothing.
Otherwise the body is force-elaborated, guarded by `hasForceElaborated`
so it happens at most once, and the result is taken from the compilation's
package-export candidate set (an oracle `cands`). -/
def PackageSymbol.findForImport (p : PackageSymbol)
    (cands : String → Option SymId) (lookupName : String) (s : PackageState) :
    Option SymId × PackageState :=
  match p.members.find? (fun m => m.1 = lookupName) with
  | some m => (some m.2, s)
  | none =>
    if !p.hasExportAll && !p.exportDeclsNonempty then (none, s)
    else
      let s1 :=
        if s.hasForceElaborated then s
        else { hasForceElaborated := true, elabCount := s.elabCount + 1 }
      (cands lookupName, s1)

/-! ## Built-in N-input / N-output gate connection directions
(PrimitiveInstanceSymbol::getPortConnections, lines 1405-1427) -/

/-- The primitive kinds dispatched on by the connection binder. -/
inductive PrimitiveKind where
  | nInput
  | nOutput
  | userDefined
deriving DecidableEq, Repr

/-- Lines 1416-1421: the direction bound for connection `i` of an N-input
or N-output gate with `connCount` connections.  For N-input gates the
source computes `i == 0 ? Out : In`; for N-output gates it computes
`conns.size() - 1 ? In : Out`, i.e. it tests the constant `connCount - 1`
for being nonzero rather than comparing it with `i`. -/
def nGateConnDirection (kind : PrimitiveKind) (connCount : Nat) (i : Nat) : ArgDir :=
  match kind with
  | .nInput => if i = 0 then .dirOut else .dirIn
  | _ => if connCount - 1 ≠ 0 then .dirIn else .dirOut

/-- Lines 1406-1427: fewer than two connections on an N-kind gate is an
arity error (`InvalidNGateCount`, modelled as `none`); otherwise each
connection is bound with the direction computed above. -/
def nGateBindDirections (kind : PrimitiveKind) (connCount : Nat) :
    Option (List ArgDir) :=
  if connCount < 2 then none
  else some ((List.range connCount).map (nGateConnDirection kind connCount))

/-! ## Instance creation entry points (InstanceBuilder::create, lines
67-90; createCheckers, lines 1589-1623) -/

/-- The part of `HierarchicalInstanceSyntax` the claims need: the optional
declarator with its name and dimensions. -/
structure HierInstanceSyn where
  decl : Option (String × List EvaluatedDimension)

/-- `InstanceBuilder::create`: a missing declarator gets an
`InstanceNameRequired` diagnostic and a single instance with the empty
name is created directly (no array recursion); otherwise the declared
dimensions are recursed over. -/
def InstanceBuilder.create (maxInstanceArray : Nat) (syn : HierInstanceSyn) :
    HierSym × List DiagCode :=
  match syn.decl with
  | none => (.inst "" [], [.instanceNameRequired])
  | some (instName, dims) =>
    InstanceBuilder.recurse maxInstanceArray instName dims []

/-- The loop of `createInstances` over `syntax.instances` (lines 537-541):
each sibling is built independently by `InstanceBuilder::create`. -/
def buildAllInstances (maxInstanceArray : Nat) (instances : List HierInstanceSyn) :
    List (HierSym × List DiagCode) :=
  instances.map (InstanceBuilder.create maxInstanceArray)

/-- One iteration of `createCheckers` (lines 1603-1622): a missing
declarator gets an `InstanceNameRequired` diagnostic and a single checker
instance is created with an empty array path; otherwise the declared
dimensions are recursed over. -/
def createCheckerOne (maxInstanceArray : Nat) (syn : HierInstanceSyn) :
    HierSym × List DiagCode :=
  match syn.decl with
  | none => (.checkerInst "" [], [.instanceNameRequired])
  | some (instName, dims) =>
    recurseCheckerArray maxInstanceArray instName dims []

/-- The loop of `createCheckers` over `syntax.instances`. -/
def createAllCheckers (maxInstanceArray : Nat) (instances : List HierInstanceSyn) :
    List (HierSym × List DiagCode) :=
  instances.map (createCheckerOne maxInstanceArray)

/-! ## Helper lemmas -/

theorem ConstantRange.indices_length (r : ConstantRange) :
    r.indices.length = r.width := by
  unfold ConstantRange.indices
  rw [List.length_map, List.length_range]

theorem ConstantRange.width_int (r : ConstantRange) :
    (r.width : Int) = r.upper - r.lower + 1 := by
  simp only [ConstantRange.width, ConstantRange.upper, ConstantRange.lower]
  omega

theorem InstanceSymbol.resolveStep_body (conns : List (Nat × Nat))
    (s : InstanceSymbol) : (InstanceSymbol.resolveStep conns s).body = s.body := by
  unfold InstanceSymbol.resolveStep
  split <;> rfl

theorem InstanceSymbol.resolveStep_selfId (conns : List (Nat × Nat))
    (s : InstanceSymbol) : (InstanceSymbol.resolveStep conns s).selfId = s.selfId := by
  unfold InstanceSymbol.resolveStep
  split <;> rfl

/-- The trie child consulted (or freshly created) by `updateChild`. -/
def childLookup (children : List (String × InstanceOverride)) (seg : String) :
    InstanceOverride :=
  match children.find? (fun c => c.1 = seg) with
  | some c => c.2
  | none => InstanceOverride.empty

theorem InstanceOverride.empty_ruleAt (path : List String) :
    InstanceOverride.empty.ruleAt path = none := by
  cases path <;> rfl

theorem updateChild_spec (children : List (String × InstanceOverride))
    (seg : String) (f : InstanceOverride → InstanceOverride × List DiagCode) :
    (updateChild children seg f).1.find? (fun c => c.1 = seg)
        = some (seg, (f (childLookup children seg)).1)
    ∧ (updateChild children seg f).2 = (f (childLookup children seg)).2 := by
  induction children with
  | nil => exact ⟨by simp [updateChild, childLookup, List.find?], rfl⟩
  | cons hd tl ih =>
    obtain ⟨k, v⟩ := hd
    by_cases hk : k = seg
    · subst hk
      exact ⟨by simp [updateChild, childLookup, List.find?],
        by simp [updateChild, childLookup, List.find?]⟩
    · constructor
      · simpa [updateChild, childLookup, List.find?, hk] using ih.1
      · simpa [updateChild, childLookup, List.find?, hk] using ih.2

theorem InstanceOverride.ruleAt_cons (nr : Option ConfigRule)
    (nc : List (String × InstanceOverride)) (seg : String) (rest : List String) :
    (InstanceOverride.mk nr nc).ruleAt (seg :: rest)
      = (childLookup nc seg).ruleAt rest := by
  simp only [InstanceOverride.ruleAt, InstanceOverride.childNodes, childLookup]
  rcases hfind : nc.find? (fun c => c.1 = seg) with _ | c
  · simp [hfind, InstanceOverride.empty_ruleAt]
  · simp [hfind]

theorem insertInstanceRule_spec (path : List String) :
    ∀ (node : InstanceOverride) (rule : ConfigRule),
      (insertInstanceRule node path rule).1.ruleAt path
          = (mergeInstanceRule (node.ruleAt path) rule).1
      ∧ (insertInstanceRule node path rule).2
          = (mergeInstanceRule (node.ruleAt path) rule).2 := by
  induction path with
  | nil => intro node rule; exact ⟨rfl, rfl⟩
  | cons seg rest ih =>
    intro node rule
    obtain ⟨nr, nc⟩ := node
    have hu := updateChild_spec nc seg (fun child => insertInstanceRule child rest rule)
    have hrec := ih (childLookup nc seg) rule
    have hclu : childLookup (updateChild nc seg
        (fun child => insertInstanceRule child rest rule)).1 seg
        = (insertInstanceRule (childLookup nc seg) rest rule).1 := by
      rw [childLookup, hu.1]
    constructor
    · calc (insertInstanceRule (.mk nr nc) (seg :: rest) rule).1.ruleAt (seg :: rest)
          = (InstanceOverride.mk nr (updateChild nc seg
              (fun child => insertInstanceRule child rest rule)).1).ruleAt
              (seg :: rest) := rfl
        _ = (childLookup (updateChild nc seg
              (fun child => insertInstanceRule child rest rule)).1 seg).ruleAt rest := by
              rw [InstanceOverride.ruleAt_cons]
        _ = (insertInstanceRule (childLookup nc seg) rest rule).1.ruleAt rest := by
              rw [hclu]
        _ = (mergeInstanceRule ((childLookup nc seg).ruleAt rest) rule).1 := hrec.1
        _ = (mergeInstanceRule
              ((InstanceOverride.mk nr nc).ruleAt (seg :: rest)) rule).1 := by
              rw [InstanceOverride.ruleAt_cons]
    · calc (insertInstanceRule (.mk nr nc) (seg :: rest) rule).2
          = (updateChild nc seg (fun child => insertInstanceRule child rest rule)).2 := rfl
        _ = (insertInstanceRule (childLookup nc seg) rest rule).2 := hu.2
        _ = (mergeInstanceRule ((childLookup nc seg).ruleAt rest) rule).2 := hrec.2
        _ = (mergeInstanceRule
              ((InstanceOverride.mk nr nc).ruleAt (seg :: rest)) rule).2 := by
              rw [InstanceOverride.ruleAt_cons]

/-! ## Claim theorems -/

/-- C3: for each of the module-like, primitive and checker instance-array
builders, a dimension that evaluates to a proper range `[lo..hi]` whose
width is within `maxInstanceArray` yields an `InstanceArray` with exactly
`hi - lo + 1` elements; a dimension that fails to evaluate to a range
yields an empty `InstanceArray` with the default range and no diagnostic;
and a dimension whose width exceeds `maxInstanceArray` yields a
`MaxInstanceArrayExceeded` diagnostic and an empty `InstanceArray`. -/
theorem instance_array_shape (maxI : Nat) (n : String) (l r : Int)
    (rest : List EvaluatedDimension) (path : List Int) :
    ((⟨l, r⟩ : ConstantRange).width ≤ maxI →
      (InstanceBuilder.recurse maxI n (.range l r :: rest) path).1.elems.length
          = (⟨l, r⟩ : ConstantRange).width
      ∧ (recursePrimArray maxI n (.range l r :: rest) path).1.elems.length
          = (⟨l, r⟩ : ConstantRange).width
      ∧ (recurseCheckerArray maxI n (.range l r :: rest) path).1.elems.length
          = (⟨l, r⟩ : ConstantRange).width
      ∧ (((⟨l, r⟩ : ConstantRange).width : Int)
          = (⟨l, r⟩ : ConstantRange).upper - (⟨l, r⟩ : ConstantRange).lower + 1))
    ∧ (InstanceBuilder.recurse maxI n (.notRange :: rest) path
        = (.instArray n [] default, [])
      ∧ recursePrimArray maxI n (.notRange :: rest) path
        = (.instArray n [] default, [])
      ∧ recurseCheckerArray maxI n (.notRange :: rest) path
        = (.instArray n [] default, []))
    ∧ ((⟨l, r⟩ : ConstantRange).width > maxI →
      InstanceBuilder.recurse maxI n (.range l r :: rest) path
        = (.instArray n [] default, [.maxInstanceArrayExceeded])
      ∧ recursePrimArray maxI n (.range l r :: rest) path
        = (.instArray n [] default, [.maxInstanceArrayExceeded])
      ∧ recurseCheckerArray maxI n (.range l r :: rest) path
        = (.instArray n [] default, [.maxInstanceArrayExceeded])) := by
  refine ⟨fun hw => ?_, ⟨rfl, rfl, rfl⟩, fun hw => ?_⟩
  · have hnot : ¬ ((⟨l, r⟩ : ConstantRange).width > maxI) := not_lt.mpr hw
    refine ⟨?_, ?_, ?_, ConstantRange.width_int _⟩ <;>
      simp [InstanceBuilder.recurse, recursePrimArray, recurseCheckerArray,
            hnot, HierSym.elems, ConstantRange.indices_length]
  · refine ⟨?_, ?_, ?_⟩ <;>
      simp [InstanceBuilder.recurse, recursePrimArray, recurseCheckerArray, hw]

/-- C3 witness: concrete evaluations discharging each hypothesis. -/
theorem instance_array_shape_witness :
    ((⟨3, 1⟩ : ConstantRange).width ≤ 10
      ∧ (InstanceBuilder.recurse 10 "m" [.range 3 1] []).1.elems.length
          = (⟨3, 1⟩ : ConstantRange).width)
    ∧ ((⟨0, 7⟩ : ConstantRange).width > 4
      ∧ recursePrimArray 4 "p" [.range 0 7] []
          = (.instArray "p" [] default, [.maxInstanceArrayExceeded])) := by
  have h1 := (instance_array_shape 10 "m" 3 1 [] []).1 (by decide)
  have h2 := (instance_array_shape 4 "p" 0 7 [] []).2.2 (by decide)
  exact ⟨⟨by decide, h1.1⟩, ⟨by decide, h2.2.1⟩⟩

/-- C4: both `InstanceSymbol` and `CheckerInstanceSymbol` construction set
the body's `parentInstance` back-pointer to the created instance, and the
later operations modelled here (port-connection resolution) never change
the body. -/
theorem parent_instance_back_pointer :
    (∀ (i : SymId) (n : String) (b : InstanceBodySymbol),
      (InstanceSymbol.make i n b).body.parentInstance
        = some (InstanceSymbol.make i n b).selfId)
    ∧ (∀ (i : SymId) (n : String) (b : CheckerInstanceBodySymbol),
      (CheckerInstanceSymbol.make i n b).body.parentInstance
        = some (CheckerInstanceSymbol.make i n b).selfId)
    ∧ (∀ (conns : List (Nat × Nat)) (reenters : Bool) (s : InstanceSymbol),
      (InstanceSymbol.getPortConnections conns reenters s).1.body = s.body
      ∧ (InstanceSymbol.resolvePortConnections conns reenters s).body = s.body) := by
  refine ⟨fun _ _ _ => rfl, fun _ _ _ => rfl, fun conns reenters s => ?_⟩
  have hres : (InstanceSymbol.resolvePortConnections conns reenters s).body = s.body := by
    unfold InstanceSymbol.resolvePortConnections
    cases reenters <;>
      simp [InstanceSymbol.resolveStep_body]
  refine ⟨?_, hres⟩
  unfold InstanceSymbol.getPortConnections
  split
  · rfl
  · exact hres

/-- C5: the port-connection map is memoised.  On an instance whose map is
unallocated, a call resolves the connections and allocates the map
(whether or not elaborating the port list re-enters the resolver); an
activation that observes an already-set map returns the state unchanged;
and a second call returns exactly the same state and the same map
contents as the first. -/
theorem getPortConnections_idempotent (conns : List (Nat × Nat))
    (r1 r2 : Bool) (s : InstanceSymbol) (h : s.connectionMap = none) :
    (InstanceSymbol.getPortConnections conns r1 s).1.connectionMap = some conns
    ∧ (InstanceSymbol.getPortConnections conns r1 s).2 = conns
    ∧ (∀ t : InstanceSymbol, t.connectionMap.isSome →
        InstanceSymbol.resolveStep conns t = t)
    ∧ InstanceSymbol.getPortConnections conns r2
        (InstanceSymbol.getPortConnections conns r1 s).1
      = ((InstanceSymbol.getPortConnections conns r1 s).1,
         (InstanceSymbol.getPortConnections conns r1 s).2) := by
  have hstep : ∀ t : InstanceSymbol, t.connectionMap.isSome →
      InstanceSymbol.resolveStep conns t = t := by
    intro t ht
    unfold InstanceSymbol.resolveStep
    simp [ht]
  have hfirst : (InstanceSymbol.getPortConnections conns r1 s).1
      = { s with connectionMap := some conns, connections := conns } := by
    unfold InstanceSymbol.getPortConnections InstanceSymbol.resolvePortConnections
      InstanceSymbol.resolveStep
    cases r1 <;> simp [h]
  have hsnd : (InstanceSymbol.getPortConnections conns r1 s).2
      = (InstanceSymbol.getPortConnections conns r1 s).1.connections := rfl
  refine ⟨by rw [hfirst], by rw [hsnd, hfirst], hstep, ?_⟩
  rw [hsnd, hfirst]
  unfold InstanceSymbol.getPortConnections
  simp

/-- C5 witness: a fresh instance, resolved twice. -/
theorem getPortConnections_idempotent_witness :
    (InstanceSymbol.make 1 "m" ⟨"def1", false, false, none⟩).connectionMap = none
    ∧ (InstanceSymbol.getPortConnections [(1, 2)] true
        (InstanceSymbol.make 1 "m" ⟨"def1", false, false, none⟩)).2 = [(1, 2)] := by
  exact ⟨rfl,
    (getPortConnections_idempotent [(1, 2)] true false
      (InstanceSymbol.make 1 "m" ⟨"def1", false, false, none⟩) rfl).2.1⟩

/-- C10: a hierarchical instance with no declarator gets an
`InstanceNameRequired` diagnostic and still yields exactly one instance
with the empty name (no array recursion happens), both for module-like
builders and for checkers, and each sibling in the same statement is
built independently of the others. -/
theorem missing_declarator_handling :
    (∀ maxI : Nat, InstanceBuilder.create maxI ⟨none⟩
      = (.inst "" [], [.instanceNameRequired]))
    ∧ (∀ maxI : Nat, createCheckerOne maxI ⟨none⟩
      = (.checkerInst "" [], [.instanceNameRequired]))
    ∧ (∀ (maxI : Nat) (pre post : List HierInstanceSyn) (syn : HierInstanceSyn),
      buildAllInstances maxI (pre ++ syn :: post)
        = buildAllInstances maxI pre
          ++ InstanceBuilder.create maxI syn :: buildAllInstances maxI post)
    ∧ (∀ (maxI : Nat) (pre post : List HierInstanceSyn) (syn : HierInstanceSyn),
      createAllCheckers maxI (pre ++ syn :: post)
        = createAllCheckers maxI pre
          ++ createCheckerOne maxI syn :: createAllCheckers maxI post) := by
  refine ⟨fun _ => rfl, fun _ => rfl, fun maxI pre post syn => ?_, fun maxI pre post syn => ?_⟩
  · simp [buildAllInstances]
  · simp [createAllCheckers]

/-- C1: when a per-instance config rule resolves the target name to a
config block with a sole top cell, that top cell is resolved to the
actual definition, and the created instance carries a fresh
`ResolvedConfig` whose `useConfig` is the new config block, whose
`rootInstance` is the created instance, and whose liblist is the new
config's `defaultLiblist` (with the triggering rule carried along). -/
theorem config_redirect_seeds_fresh_resolved_config
    (comp : Compilation) (defName : String) (parentConfig : ResolvedConfig)
    (rule : ConfigRule) (instId : SymId) (cb : ConfigBlockSymbol)
    (cell : ConfigCellId) (ds : DefinitionSymbol)
    (hlookup : comp.getDefinitionWithRule defName rule = some (.configBlock cb))
    (htop : cb.topCells = [cell])
    (hres : comp.getDefinitionFromConfig cb cell = some ds) :
    elabInstanceWithRule comp defName parentConfig rule instId
      = (some ds,
         some { useConfig := cb, rootInstance := instId,
                liblist := cb.defaultLiblist, configRule := some rule }) := by
  unfold elabInstanceWithRule resolveConfigRedirect
  simp only [hlookup, htop, hres, localConfigFor, InstanceBuilder.instConfig,
    ResolvedConfig.make]

/-- C1 witness: a concrete compilation in which the rule's lookup yields a
config block whose sole top cell resolves to a definition. -/
theorem config_redirect_seeds_fresh_resolved_config_witness :
    elabInstanceWithRule
      ⟨fun _ _ => some (.configBlock ⟨"cfg2", [⟨"", "baz", false⟩], [3, 4]⟩),
       fun _ _ => some ⟨"baz", 3⟩⟩
      "b"
      ⟨⟨"cfg1", [⟨"", "top", false⟩], [9]⟩, 0, [9], none⟩
      ⟨⟨"", "cfg2", true⟩, none, none⟩
      7
      = (some ⟨"baz", 3⟩,
         some { useConfig := ⟨"cfg2", [⟨"", "baz", false⟩], [3, 4]⟩,
                rootInstance := 7, liblist := [3, 4],
                configRule := some ⟨⟨"", "cfg2", true⟩, none, none⟩ }) :=
  config_redirect_seeds_fresh_resolved_config
    ⟨fun _ _ => some (.configBlock ⟨"cfg2", [⟨"", "baz", false⟩], [3, 4]⟩),
     fun _ _ => some ⟨"baz", 3⟩⟩
    "b"
    ⟨⟨"cfg1", [⟨"", "top", false⟩], [9]⟩, 0, [9], none⟩
    ⟨⟨"", "cfg2", true⟩, none, none⟩
    7
    ⟨"cfg2", [⟨"", "baz", false⟩], [3, 4]⟩
    ⟨"", "baz", false⟩
    ⟨"baz", 3⟩
    rfl rfl rfl

/-- C6: when the enclosing scope walk finds the context uninstantiated
(an untaken generate arm, an uninstantiated instance body, or an
uninstantiated checker body on the chain), the instantiation produces one
`UninstantiatedDef` placeholder per instance in the statement and stops —
regardless of whether a local lookup would have found a checker, no
definition lookup and no real instance creation occurs.  The checker
instantiation entry point behaves the same way. -/
theorem uninstantiated_scope_placeholders
    (scopes : List ScopeMember) (numInstances : Nat)
    (h : (findParentInstance scopes).isUninstantiated = true) :
    (∀ localLookupFindsChecker : Bool,
      instantiationAction scopes localLookupFindsChecker numInstances
        = .placeholders numInstances)
    ∧ checkerInstantiationAction true numInstances = .placeholders numInstances := by
  refine ⟨fun chk => ?_, rfl⟩
  unfold instantiationAction
  simp [h]

/-- C6 witness: an instantiation inside an untaken generate arm of an
ordinary instance body. -/
theorem uninstantiated_scope_placeholders_witness :
    (findParentInstance
        [.generateBlock true, .instanceBody false false .module]).isUninstantiated = true
    ∧ instantiationAction
        [.generateBlock true, .instanceBody false false .module] false 2
      = .placeholders 2 :=
  ⟨rfl,
   (uninstantiated_scope_placeholders
      [.generateBlock true, .instanceBody false false .module] 2 rfl).1 false⟩

/-- C7: under a parent instance body created from a bind directive, a
module-like instantiation that itself comes from a bind gets a
`BindUnderBind` diagnostic and creation is aborted; one that does not is
itself marked from-bind.  A checker instantiation behaves the same, the
abort returning an invalid placeholder whose body is uninstantiated.  A
primitive instance created from a bind directive (under a module owner,
outside a checker) is diagnosed with `BindTargetPrimitive`. -/
theorem bind_under_bind_rules (numInstances : Nat) (dk : DefinitionKind)
    (checkerName : String) (depth : Nat) (isProcedural : Bool)
    (hn : numInstances ≠ 0) :
    ((createInstancesFor numInstances (some (.defn dk)) (some .module) false true true).1
        = .aborted
      ∧ (createInstancesFor numInstances (some (.defn dk)) (some .module) false true true).2
        = [.bindUnderBind])
    ∧ (createInstancesFor numInstances (some (.defn dk)) (some .module) false true false).1
        = .builtInstances numInstances true
    ∧ ((checkerFromSynBind checkerName depth isProcedural true true).2 = [.bindUnderBind]
      ∧ (checkerFromSynBind checkerName depth isProcedural true true).1.isUninstantiated
        = true)
    ∧ (checkerFromSynBind checkerName depth isProcedural true false).1.isFromBind = true
    ∧ (∀ parentInstFromBind : Bool,
      createInstancesFor numInstances (some .primitive) (some .module) false
          parentInstFromBind true
        = (.prims numInstances, [.bindTargetPrimitive])) := by
  refine ⟨⟨?_, ?_⟩, ?_, ⟨rfl, rfl⟩, rfl, fun pfb => ?_⟩ <;>
    simp [createInstancesFor, checkerFromSynBind, hn]

/-- C7 witness: two instances, a module definition, concrete checker. -/
theorem bind_under_bind_rules_witness :
    (2 : Nat) ≠ 0
    ∧ (createInstancesFor 2 (some (.defn .module)) (some .module) false true true).1
      = .aborted
    ∧ (checkerFromSynBind "chk" 1 false true false).1.isFromBind = true :=
  ⟨by decide,
   (bind_under_bind_rules 2 .module "chk" 1 false (by decide)).1.1,
   (bind_under_bind_rules 2 .module "chk" 1 false (by decide)).2.2.2.1⟩

/-- C2 counterexample: two `instance` rules for the same hierarchical path
`top.a` that both set the liblist slot.  Processing them emits no
diagnostic at all — the conflicting second rule is silently dropped and
the first rule is kept — refuting the claim that a same-slot conflict
causes an error diagnostic. -/
theorem instance_rule_conflict_no_diagnostic :
    (processInstanceRules InstanceOverride.empty
        [(["top", "a"], ⟨⟨"", "", false⟩, some [1], none⟩),
         (["top", "a"], ⟨⟨"", "", false⟩, some [2], none⟩)]).2 = []
    ∧ (processInstanceRules InstanceOverride.empty
        [(["top", "a"], ⟨⟨"", "", false⟩, some [1], none⟩),
         (["top", "a"], ⟨⟨"", "", false⟩, some [2], none⟩)]).1.ruleAt ["top", "a"]
      = some ⟨⟨"", "", false⟩, some [1], none⟩ := by
  exact ⟨rfl, rfl⟩

/-- C2 (amended): multiple `instance` rules for the same hierarchical path
whose set slots are orthogonal are merged component-wise into a single
rule recording the union; two rules that set the same slot are not
diagnosed — no diagnostic is emitted (the source carries a `TODO: error`
marker) and the later rule is silently dropped, keeping the existing
rule. -/
theorem instance_rule_merge_amended (node : InstanceOverride)
    (path : List String) (r1 r2 : ConfigRule)
    (hr : node.ruleAt path = some r1) :
    (insertInstanceRule node path r2).2 = []
    ∧ (r1.conflictsWith r2 = false →
        (insertInstanceRule node path r2).1.ruleAt path = some (r1.mergeFrom r2))
    ∧ (r1.conflictsWith r2 = true →
        (insertInstanceRule node path r2).1.ruleAt path = some r1)
    ∧ (r1.mergeFrom r2).paramOverrides
        = (if r2.paramOverrides.isSome then r2.paramOverrides else r1.paramOverrides)
    ∧ (r1.mergeFrom r2).liblist
        = (if r2.liblist.isSome then r2.liblist else r1.liblist)
    ∧ (r1.mergeFrom r2).useCell
        = (if !r2.useCell.cell.isEmpty then r2.useCell else r1.useCell) := by
  have hs := insertInstanceRule_spec path node r2
  rw [hr] at hs
  refine ⟨?_, fun hc => ?_, fun hc => ?_, rfl, rfl, rfl⟩
  · rw [hs.2]
    unfold mergeInstanceRule
    split <;> first | rfl | (split <;> rfl)
  · rw [hs.1]
    unfold mergeInstanceRule
    simp [hc]
  · rw [hs.1]
    unfold mergeInstanceRule
    simp [hc]

/-- C2 witness: an existing `use`-slot rule at `top.a` merged with a
liblist-slot rule (orthogonal, merged with no diagnostic), and with a
second `use`-slot rule (same slot, silently kept as the original). -/
theorem instance_rule_merge_amended_witness :
    ((insertInstanceRule InstanceOverride.empty ["top", "a"]
        ⟨⟨"", "bar", false⟩, none, none⟩).1.ruleAt ["top", "a"]
      = some ⟨⟨"", "bar", false⟩, none, none⟩)
    ∧ (ConfigRule.conflictsWith ⟨⟨"", "bar", false⟩, none, none⟩
        ⟨⟨"", "", false⟩, some [1], none⟩ = false)
    ∧ (insertInstanceRule
        (insertInstanceRule InstanceOverride.empty ["top", "a"]
          ⟨⟨"", "bar", false⟩, none, none⟩).1 ["top", "a"]
        ⟨⟨"", "", false⟩, some [1], none⟩).2 = []
    ∧ (insertInstanceRule
        (insertInstanceRule InstanceOverride.empty ["top", "a"]
          ⟨⟨"", "bar", false⟩, none, none⟩).1 ["top", "a"]
        ⟨⟨"", "", false⟩, some [1], none⟩).1.ruleAt ["top", "a"]
      = some ⟨⟨"", "bar", false⟩, some [1], none⟩ := by
  have h := instance_rule_merge_amended
    (insertInstanceRule InstanceOverride.empty ["top", "a"]
      ⟨⟨"", "bar", false⟩, none, none⟩).1 ["top", "a"]
    ⟨⟨"", "bar", false⟩, none, none⟩ ⟨⟨"", "", false⟩, some [1], none⟩ rfl
  exact ⟨rfl, rfl, h.1, h.2.1 rfl⟩

/-- C8 counterexample: a package that declares `a` but has no export
declarations at all, looked up for the undeclared name `x`.  The claim
says the first lookup force-elaborates the package body exactly once; the
code skips force-elaboration entirely for such a package (the elaboration
count stays 0, not 1). -/
theorem package_no_export_no_force_elaboration :
    ((PackageSymbol.findForImport ⟨[("a", 1)], false, false⟩ (fun _ => none) "x"
        PackageState.initial).2.elabCount = 0)
    ∧ ¬ ((PackageSymbol.findForImport ⟨[("a", 1)], false, false⟩ (fun _ => none) "x"
        PackageState.initial).2.elabCount = 1) := by
  exact ⟨rfl, by decide⟩

/-- C8 (amended): for every package that has export declarations (an
`export *::*` or at least one explicit export), the first import lookup of
a name that is not directly declared force-elaborates the package body
exactly once before the export-candidate set is consulted; a subsequent
lookup does not re-elaborate, and both lookups draw their result from the
package-export candidate set. -/
theorem package_force_elaborate_once (p : PackageSymbol)
    (cands : String → Option SymId) (nm : String) (s : PackageState)
    (hmem : p.members.find? (fun m => m.1 = nm) = none)
    (hexp : p.hasExportAll = true ∨ p.exportDeclsNonempty = true)
    (hfe : s.hasForceElaborated = false) :
    (p.findForImport cands nm s).2.elabCount = s.elabCount + 1
    ∧ (p.findForImport cands nm s).2.hasForceElaborated = true
    ∧ (p.findForImport cands nm s).1 = cands nm
    ∧ (p.findForImport cands nm (p.findForImport cands nm s).2).2.elabCount
        = (p.findForImport cands nm s).2.elabCount
    ∧ (p.findForImport cands nm (p.findForImport cands nm s).2).1 = cands nm := by
  have hguard : (!p.hasExportAll && !p.exportDeclsNonempty) = false := by
    rcases hexp with h | h <;> simp [h]
  have hfirst : p.findForImport cands nm s
      = (cands nm, { hasForceElaborated := true, elabCount := s.elabCount + 1 }) := by
    unfold PackageSymbol.findForImport
    rw [hmem, hguard]
    simp [hfe]
  have hsecond : p.findForImport cands nm
      { hasForceElaborated := true, elabCount := s.elabCount + 1 }
      = (cands nm, { hasForceElaborated := true, elabCount := s.elabCount + 1 }) := by
    unfold PackageSymbol.findForImport
    rw [hmem, hguard]
    simp
  rw [hfirst]
  exact ⟨rfl, rfl, rfl, by rw [hsecond], by rw [hsecond]⟩

/-- C8 witness: a package with `export *::*`, fresh state, undeclared
name. -/
theorem package_force_elaborate_once_witness :
    ((⟨[("a", 1)], true, false⟩ : PackageSymbol).members.find?
        (fun m => m.1 = "x") = none)
    ∧ (PackageSymbol.findForImport ⟨[("a", 1)], true, false⟩ (fun _ => some 5) "x"
        PackageState.initial).2.elabCount = PackageState.initial.elabCount + 1
    ∧ (PackageSymbol.findForImport ⟨[("a", 1)], true, false⟩ (fun _ => some 5) "x"
        PackageState.initial).1 = some 5 := by
  have h := package_force_elaborate_once ⟨[("a", 1)], true, false⟩
    (fun _ => some 5) "x" PackageState.initial (by decide) (Or.inl rfl) rfl
  exact ⟨by decide, h.1, h.2.2.1⟩

/-- C9: what the code actually computes for built-in N-kind gate
connection directions.  For an N-input gate connection 0 is bound `Out`
and the rest `In`; but for an N-output gate the source tests
`conns.size() - 1` (a constant, nonzero whenever there are at least two
connections) instead of `i == conns.size() - 1`, so every connection —
including the leading ones that should be outputs — is bound `In`. -/
theorem ngate_direction_evaluation :
    nGateBindDirections .nInput 3 = some [.dirOut, .dirIn, .dirIn]
    ∧ nGateBindDirections .nOutput 2 = some [.dirIn, .dirIn]
    ∧ nGateBindDirections .nOutput 3 = some [.dirIn, .dirIn, .dirIn] := by
  decide

end Slang
